import Mathlib

/-!
Verification development for the CourtBooking backend.

This file gives a shallow embedding of the booking and pricing core
(`backend/pricing.py` and the booking/cancellation handlers of
`backend/main.py`) and proves properties of that embedding.

Modelling conventions:
* Python `datetime.datetime` values are modelled at minute granularity by a
  pair (days since an epoch, minute of day); the epoch day 0 is a Monday, so
  `strftime` weekday names are derived from `day % 7`.
* Python floats are modelled by rationals.
* `CoachAvailability.start_time` / `end_time` are stored in the source as
  zero-padded "HH:MM" strings and compared lexicographically, which on such
  strings coincides with numeric order of minutes; they are modelled as
  minute-of-day numbers compared numerically.
* Nullable numeric columns (`base_hourly`, `hourly_rate`) are `Option ℚ` and
  the source's `x or 0` idiom is `pyOr0`.
* SQLAlchemy tables are lists of rows in insertion order; autoincrement ids
  and `created_at` timestamps come from the `next_id` / `clock` counters of
  the database state.
* `BookingAllocation.resource_id` holds an integer for courts/coaches and a
  string SKU for equipment; it is modelled by the sum type `ResId`, on which
  equality is structural (matching Python, where `1 == "1"` is `False`).
-/

/-- A timestamp at minute granularity: days since an epoch plus minute of the
day.  Day 0 is taken to be a Monday. -/
structure DateTime where
  day : Nat
  minute : Nat
deriving DecidableEq

/-- Total minutes since the epoch; Python `datetime` comparison corresponds to
comparing these values. -/
def DateTime.toMin (t : DateTime) : Nat := t.day * 1440 + t.minute

/-- Model of `datetime.isoformat()`: an injective textual rendering used only
to build slot-hash strings. -/
def DateTime.isoformat (t : DateTime) : String :=
  toString t.day ++ "T" ++ toString t.minute

/-- Lowercase full weekday name, as `strftime('%A').lower()` produces. -/
def weekdayFull (t : DateTime) : String :=
  (["monday", "tuesday", "wednesday", "thursday", "friday", "saturday",
    "sunday"]).getD (t.day % 7) ""

/-- Lowercase 3-letter weekday name, as `strftime('%a').lower()` produces. -/
def weekdayAbbr (t : DateTime) : String :=
  String.mk ((weekdayFull t).data.take 3)

/-- `(end_ts - start_ts).total_seconds() / 3600.0`. -/
def durationHours (start_ts end_ts : DateTime) : ℚ :=
  ((end_ts.toMin : ℚ) - (start_ts.toMin : ℚ)) / 60

/-- The Python `x or 0` idiom on a nullable numeric column. -/
def pyOr0 : Option ℚ → ℚ
  | none => 0
  | some q => q

/-- `s[:n]` on strings, via the underlying character list. -/
def takeStr (n : Nat) (s : String) : String := String.mk (s.data.take n)

/-- `s.lower()`, via the underlying character list. -/
def lowerStr (s : String) : String := String.mk (s.data.map Char.toLower)

/-- Characters of `s` before the first `@`, i.e. `s.split('@')[0]`. -/
def localPartAux : List Char → List Char
  | [] => []
  | c :: cs => if c = '@' then [] else c :: localPartAux cs

/-- `email.split('@')[0]`: the local part of an email address. -/
def localPart (s : String) : String := String.mk (localPartAux s.data)

/-- The `modifier` sub-dict of a rule's `rule_json`: `type` is
`'percentage'`/`'absolute'` (absent key gives `none`), `value` defaults to 0
on access. -/
structure Modifier where
  type : Option String
  value : Option ℚ
deriving DecidableEq

/-- The `match` sub-dict of a rule's `rule_json`.  `days` is the optional
day-name list (`if days:` also skips an empty list); `start`/`endT` are the
optional "HH:MM" bounds, parsed to minute of day (`none` models an absent or
empty string, which is falsy). -/
structure MatchSpec where
  days : Option (List String)
  start : Option Nat
  endT : Option Nat
deriving DecidableEq

/-- A rule's `rule_json` dict.  `matchSpec = none` models an absent or empty
`match` dict (both are falsy in `if not match:`). -/
structure RuleJson where
  matchSpec : Option MatchSpec
  applies_to : Option String
  modifier : Option Modifier
  stack_behavior : Option String
deriving DecidableEq

/-- A `PricingRule` row. -/
structure PricingRule where
  name : String
  enabled : Bool
  priority : Int
  rule_json : RuleJson
deriving DecidableEq

/-- The day-set clause of `rule_applies`: with no day list (or an empty one,
which is falsy) every day passes, otherwise the lowercased 3-letter weekday of
the start timestamp must be among the lowercased 3-letter prefixes of the
listed days. -/
def day_matches (m : MatchSpec) (start_ts : DateTime) : Bool :=
  match m.days with
  | none => true
  | some [] => true
  | some ds =>
    let weekday := lowerStr (weekdayAbbr start_ts)
    let days_lower := ds.map (fun d => lowerStr (takeStr 3 d))
    days_lower.contains (lowerStr (takeStr 3 weekday))

/-- The time-of-day clause of `rule_applies`: when both bounds are present the
start timestamp's time of day must lie in the half-open window
`[start, endT)`. -/
def time_matches (m : MatchSpec) (start_ts : DateTime) : Bool :=
  match m.start, m.endT with
  | some st, some et => decide (st ≤ start_ts.minute) && decide (start_ts.minute < et)
  | _, _ => true

/-- The category clause of `rule_applies`: when the rule's `applies_to` and
the target's `type` are both truthy (present and non-empty) and `applies_to`
is not the wildcard `"all"`, the two must be equal. -/
def category_matches (rj : RuleJson) (targetType : Option String) : Bool :=
  match rj.applies_to, targetType with
  | some a, some t =>
    if (a != "") && (t != "") && (a != "all") then a == t else true
  | _, _ => true

/-- `pricing.rule_applies`: an absent or empty `match` dict matches
immediately; otherwise the day, time-of-day and category clauses are checked
in order.  The `end_ts` parameter is accepted but never consulted, exactly as
in the source. -/
def rule_applies (rj : RuleJson) (targetType : Option String)
    (start_ts end_ts : DateTime) : Bool :=
  match rj.matchSpec with
  | none => true
  | some m =>
    if !day_matches m start_ts then false
    else if !time_matches m start_ts then false
    else category_matches rj targetType

/-- One entry of the `rule_breakdown` audit list. -/
structure BreakdownEntry where
  name : String
  modifier : String
  after : ℚ
deriving DecidableEq

/-- One entry of the `line_items` list. -/
structure LineItem where
  name : String
  amount : ℚ
deriving DecidableEq

/-- The dict returned by `compute_price`. -/
structure PriceResult where
  base : ℚ
  rule_breakdown : List BreakdownEntry
  line_items : List LineItem
  total : ℚ
deriving DecidableEq

/-- One step of the rule fold in `compute_price`, acting on the running total
together with the breakdown accumulator.  A `percentage` modifier applies its
stack behavior (`additive`, `multiplicative`, `max`; an unrecognized stack
leaves the total unchanged but still records a breakdown entry, as in the
source); an `absolute` modifier adds its value; any other modifier type does
nothing. -/
def applyRuleStep (acc : ℚ × List BreakdownEntry) (r : PricingRule) :
    ℚ × List BreakdownEntry :=
  let total := acc.1
  let typ : Option String := r.rule_json.modifier.bind (fun m => m.type)
  let val : ℚ := (r.rule_json.modifier.bind (fun m => m.value)).getD 0
  let stack : String := r.rule_json.stack_behavior.getD "additive"
  if typ == some "percentage" then
    let total2 :=
      if stack == "additive" then total + total * (val / 100)
      else if stack == "multiplicative" then total * (1 + val / 100)
      else if stack == "max" then max total (total * (1 + val / 100))
      else total
    (total2, acc.2 ++ [{ name := r.name, modifier := toString val ++ "%", after := total2 }])
  else if typ == some "absolute" then
    (total + val, acc.2 ++ [{ name := r.name, modifier := toString val, after := total + val }])
  else (total, acc.2)

/-- Stable insertion of a rule into a list already sorted by descending
priority: the new rule goes before the first strictly-lower-priority element,
after any equal-priority ones it follows in the original list. -/
def insertRuleDesc (x : PricingRule) : List PricingRule → List PricingRule
  | [] => [x]
  | y :: ys =>
    if x.priority ≥ y.priority then x :: y :: ys else y :: insertRuleDesc x ys

/-- Stable sort by descending `priority`, modelling Python's stable
`sort(key=priority, reverse=True)`. -/
def sortRulesDesc (l : List PricingRule) : List PricingRule :=
  l.foldr insertRuleDesc []

/-- A resource identifier stored in a `BookingAllocation.resource_id` column:
an integer id for courts and coaches, a string SKU for equipment. -/
inductive ResId where
  | rint : Nat → ResId
  | rstr : String → ResId
deriving DecidableEq

/-- How the resource id prints inside an f-string. -/
def ResId.display : ResId → String
  | .rint n => toString n
  | .rstr s => s

/-- A `users` row (fields relevant to the booking core). -/
structure UserRow where
  id : Nat
  name : String
  email : String
deriving DecidableEq

/-- A `courts` row. -/
structure Court where
  id : Nat
  name : String
  type : String
  enabled : Bool
  base_hourly : Option ℚ
deriving DecidableEq

/-- An `equipment_items` row. -/
structure EquipmentItem where
  sku : String
  name : String
  total_quantity : Int
  active : Bool
deriving DecidableEq

/-- A `coaches` row. -/
structure Coach where
  id : Nat
  name : String
  hourly_rate : Option ℚ
  active : Bool
deriving DecidableEq

/-- A `coach_availability` row; times are minutes of day (see the header
comment on "HH:MM" strings). -/
structure CoachAvailability where
  coach_id : Nat
  day_of_week : String
  start_time : Nat
  end_time : Nat
deriving DecidableEq

/-- A `bookings` row. -/
structure Booking where
  id : Nat
  user_id : Nat
  start_ts : DateTime
  end_ts : DateTime
  status : String
  total_price : ℚ
  pricing_snapshot : Option PriceResult
  created_at : Nat
deriving DecidableEq

/-- A `booking_allocations` row. -/
structure Allocation where
  booking_id : Nat
  resource_type : String
  resource_id : ResId
  quantity : Int
deriving DecidableEq

/-- A `waitlist_entries` row. -/
structure WaitlistRow where
  id : Nat
  slot_hash : String
  user_id : Nat
  created_at : Nat
deriving DecidableEq

/-- The JSON payload of an `audit_events` row, as built by the handlers. -/
inductive AuditPayload where
  | userEmail : String → AuditPayload
  | nextWaitlistUser : Nat → AuditPayload
deriving DecidableEq

/-- An `audit_events` row. -/
structure AuditRow where
  booking_id : Nat
  event_type : String
  payload : AuditPayload
deriving DecidableEq

/-- The persistent store: one list per table, in insertion order, plus the id
and creation-time counters. -/
structure DbState where
  users : List UserRow
  courts : List Court
  equipment_items : List EquipmentItem
  coaches : List Coach
  coach_availability : List CoachAvailability
  bookings : List Booking
  allocations : List Allocation
  pricing_rules : List PricingRule
  waitlist : List WaitlistRow
  audit : List AuditRow
  next_id : Nat
  clock : Nat
deriving DecidableEq

/-- One line of the request's `equipment` list; `quantity` defaults to 1 on
access, `fee` may be absent, `meta_fee` is `e.get('meta', {}).get('fee', 0)`. -/
structure EquipmentReq where
  sku : String
  quantity : Option Int
  fee : Option ℚ
  meta_fee : Option ℚ
deriving DecidableEq

/-- The booking request body (the unused `idempotency_key` is omitted). -/
structure BookingRequest where
  user_email : String
  start_ts : DateTime
  end_ts : DateTime
  court_id : Nat
  equipment : List EquipmentReq
  coach_id : Option Nat
deriving DecidableEq

/-- `pricing.compute_price`: base price from the hourly rate and duration,
then the enabled applicable rules sorted by descending priority folded into
the total, then equipment fees and the coach fee. -/
def compute_price (db : DbState) (court : Court) (start_ts end_ts : DateTime)
    (equipment : List EquipmentReq) (coach : Option Coach) : PriceResult :=
  let duration_hours : ℚ := durationHours start_ts end_ts
  let base : ℚ := pyOr0 court.base_hourly * duration_hours
  let line_items : List LineItem :=
    [{ name := "Court " ++ court.name ++ " base", amount := base }]
  let rules := db.pricing_rules.filter (fun r => r.enabled)
  let targetType : Option String := some court.type
  let applicable :=
    rules.filter (fun r => rule_applies r.rule_json targetType start_ts end_ts)
  let sortedRules := sortRulesDesc applicable
  let folded := sortedRules.foldl applyRuleStep (base, [])
  let eqFold := equipment.foldl
    (fun (acc : ℚ × List LineItem) e =>
      let qty : ℚ := ((e.quantity.getD 1 : Int) : ℚ)
      let fee : ℚ :=
        match e.fee with
        | some f => f
        | none => e.meta_fee.getD 0
      let amount := fee * qty
      (acc.1 + amount,
       if amount == 0 then acc.2
       else acc.2 ++ [{ name := "Equipment " ++ e.sku, amount := amount }]))
    (0, line_items)
  let coachPart : ℚ × List LineItem :=
    match coach with
    | some c =>
      let ct := pyOr0 c.hourly_rate * duration_hours
      (ct, eqFold.2 ++ [{ name := "Coach " ++ c.name, amount := ct }])
    | none => (0, eqFold.2)
  { base := base, rule_breakdown := folded.2, line_items := coachPart.2,
    total := folded.1 + eqFold.1 + coachPart.1 }

/-- The outcome of a booking attempt, mirroring the handler's responses and
raised `HTTPException`s. -/
inductive Reason where
  | court_unavailable
  | equipment_not_available (sku : String)
  | equipment_insufficient (sku : String) (requested : Int) (available : Int)
  | coach_not_available
  | coach_already_booked
  | coach_no_availability (day : String)
  | coach_window (window_start : Nat) (window_end : Nat) (day : String)
deriving DecidableEq

/-- The response of `POST /api/bookings`. -/
inductive Outcome where
  | confirmed (booking_id : Nat) (total : ℚ) (pricing : PriceResult)
  | waitlisted (waitlist_id : Nat)
  | rejected (reason : Reason)
deriving DecidableEq

/-- Whether an outcome is a confirmation. -/
def Outcome.isConfirmed : Outcome → Bool
  | .confirmed _ _ _ => true
  | _ => false

/-- Whether an outcome is a rejection. -/
def Outcome.isRejected : Outcome → Bool
  | .rejected _ => true
  | _ => false

/-- The response of `POST /api/bookings/{id}/cancel`. -/
inductive CancelOutcome where
  | cancelled (next_waitlist_user_id : Option Nat)
  | notFound
deriving DecidableEq

/-- The allocations belonging to one booking, in insertion order. -/
def allocationsOf (s : DbState) (bid : Nat) : List Allocation :=
  s.allocations.filter (fun a => a.booking_id == bid)

/-- The overlap query of the handler: confirmed bookings with
`start_ts < req.end_ts` and `end_ts > req.start_ts`. -/
def overlappingConfirmed (s : DbState) (start_ts end_ts : DateTime) : List Booking :=
  s.bookings.filter (fun b =>
    decide (b.start_ts.toMin < end_ts.toMin) &&
    decide (start_ts.toMin < b.end_ts.toMin) && (b.status == "confirmed"))

/-- The slot fingerprint `f"{start}_{end}_{court_id}"`. -/
def slotHash (start_ts end_ts : DateTime) (court_id : Nat) : String :=
  start_ts.isoformat ++ "_" ++ end_ts.isoformat ++ "_" ++ toString court_id

/-- Whether any of the given (overlapping confirmed) bookings holds a court
allocation on the requested court. -/
def hasCourtConflict (s : DbState) (overlapping : List Booking) (court_id : Nat) : Bool :=
  overlapping.any (fun b =>
    (allocationsOf s b.id).any (fun a =>
      (a.resource_type == "court") && (a.resource_id == ResId.rint court_id)))

/-- Quantity of a SKU already allocated by the given (overlapping confirmed)
bookings. -/
def bookedQty (s : DbState) (overlapping : List Booking) (sku : String) : Int :=
  overlapping.foldl
    (fun acc b =>
      (allocationsOf s b.id).foldl
        (fun acc2 a =>
          if (a.resource_type == "equipment") && (a.resource_id == ResId.rstr sku)
          then acc2 + a.quantity else acc2)
        acc)
    0

/-- The equipment-validation loop of the handler: the first line whose SKU is
missing or inactive, or whose requested quantity exceeds the remaining
capacity, yields the corresponding rejection. -/
def checkEquipment (s : DbState) (overlapping : List Booking) :
    List EquipmentReq → Option Reason
  | [] => none
  | e :: rest =>
    let requested_qty := e.quantity.getD 1
    match s.equipment_items.find? (fun it => it.sku == e.sku) with
    | none => some (Reason.equipment_not_available e.sku)
    | some item =>
      if !item.active then some (Reason.equipment_not_available e.sku)
      else
        let available_qty := item.total_quantity - bookedQty s overlapping e.sku
        if requested_qty > available_qty then
          some (Reason.equipment_insufficient e.sku requested_qty available_qty)
        else checkEquipment s overlapping rest

/-- Python truthiness of the optional `coach_id` (both `None` and `0` are
falsy). -/
def coachTruthy : Option Nat → Bool
  | none => false
  | some n => n != 0

/-- Whether any of the given bookings holds a coach allocation on the
requested coach. -/
def coachOverlapBooked (s : DbState) (overlapping : List Booking) (cid : Nat) : Bool :=
  overlapping.any (fun b =>
    (allocationsOf s b.id).any (fun a =>
      (a.resource_type == "coach") && (a.resource_id == ResId.rint cid)))

/-- The coach-validation block of the handler: the coach must exist and be
active, must not be allocated to an overlapping confirmed booking, an
availability row must exist for the weekday of the start timestamp, and the
start/end times of day must fall inside its window. -/
def checkCoach (s : DbState) (overlapping : List Booking) (req : BookingRequest) :
    Option Reason :=
  if coachTruthy req.coach_id then
    let cid := req.coach_id.getD 0
    match s.coaches.find? (fun c => c.id == cid) with
    | none => some Reason.coach_not_available
    | some c =>
      if !c.active then some Reason.coach_not_available
      else if coachOverlapBooked s overlapping cid then
        some Reason.coach_already_booked
      else
        let booking_day := weekdayFull req.start_ts
        match s.coach_availability.find? (fun a =>
            (a.coach_id == cid) && (a.day_of_week == booking_day)) with
        | none => some (Reason.coach_no_availability booking_day)
        | some ca =>
          if req.start_ts.minute < ca.start_time || req.end_ts.minute > ca.end_time then
            some (Reason.coach_window ca.start_time ca.end_time booking_day)
          else none
  else none

/-- The get-or-create user step at the top of the handler: a missing user is
created (name = local part of the email) and committed immediately. -/
def resolveUser (s : DbState) (email : String) : UserRow × DbState :=
  match s.users.find? (fun u => u.email == email) with
  | some u => (u, s)
  | none =>
    let u : UserRow := { id := s.next_id, name := localPart email, email := email }
    (u, { s with users := s.users ++ [u], next_id := s.next_id + 1 })

/-- The confirm path: persist the booking with its pricing snapshot, one court
allocation, one allocation per equipment line, a coach allocation when a coach
was requested, and a `confirmed` audit event. -/
def persistBooking (s : DbState) (req : BookingRequest) (user : UserRow)
    (price : PriceResult) : Outcome × DbState :=
  let bid := s.next_id
  let booking : Booking :=
    { id := bid, user_id := user.id, start_ts := req.start_ts,
      end_ts := req.end_ts, status := "confirmed", total_price := price.total,
      pricing_snapshot := some price, created_at := s.clock }
  let courtAlloc : Allocation :=
    { booking_id := bid, resource_type := "court",
      resource_id := ResId.rint req.court_id, quantity := 1 }
  let eqAllocs := req.equipment.map (fun e =>
    ({ booking_id := bid, resource_type := "equipment",
       resource_id := ResId.rstr e.sku, quantity := e.quantity.getD 1 } : Allocation))
  let coachAllocs :=
    if coachTruthy req.coach_id then
      [({ booking_id := bid, resource_type := "coach",
          resource_id := ResId.rint (req.coach_id.getD 0), quantity := 1 } : Allocation)]
    else []
  let auditRow : AuditRow :=
    { booking_id := bid, event_type := "confirmed",
      payload := AuditPayload.userEmail req.user_email }
  (Outcome.confirmed bid price.total price,
   { s with bookings := s.bookings ++ [booking],
            allocations := s.allocations ++ [courtAlloc] ++ eqAllocs ++ coachAllocs,
            audit := s.audit ++ [auditRow],
            next_id := s.next_id + 1,
            clock := s.clock + 1 })

/-- The body of `create_booking` after the user has been resolved: court
validation, price computation, conflict check (waitlisting on conflict),
equipment and coach validation, then the confirm path. -/
def create_booking_core (s1 : DbState) (user : UserRow) (req : BookingRequest) :
    Outcome × DbState :=
  match s1.courts.find? (fun c => c.id == req.court_id) with
  | none => (Outcome.rejected Reason.court_unavailable, s1)
  | some court =>
    if !court.enabled then (Outcome.rejected Reason.court_unavailable, s1)
    else
      let coach :=
        if coachTruthy req.coach_id then
          s1.coaches.find? (fun c => c.id == req.coach_id.getD 0)
        else none
      let price := compute_price s1 court req.start_ts req.end_ts req.equipment coach
      let slot_hash := slotHash req.start_ts req.end_ts req.court_id
      let overlapping := overlappingConfirmed s1 req.start_ts req.end_ts
      if hasCourtConflict s1 overlapping req.court_id then
        let w : WaitlistRow :=
          { id := s1.next_id, slot_hash := slot_hash, user_id := user.id,
            created_at := s1.clock }
        (Outcome.waitlisted w.id,
         { s1 with waitlist := s1.waitlist ++ [w], next_id := s1.next_id + 1,
                   clock := s1.clock + 1 })
      else
        match checkEquipment s1 overlapping req.equipment with
        | some reason => (Outcome.rejected reason, s1)
        | none =>
          match checkCoach s1 overlapping req with
          | some reason => (Outcome.rejected reason, s1)
          | none => persistBooking s1 req user price

/-- `POST /api/bookings` (`create_booking` in `main.py`). -/
def create_booking (s : DbState) (req : BookingRequest) : Outcome × DbState :=
  let r := resolveUser s req.user_email
  create_booking_core r.2 r.1 req

/-- The earliest-created entry of a list, i.e.
`order_by(created_at).first()`. -/
def earliestEntry : List WaitlistRow → Option WaitlistRow
  | [] => none
  | w :: ws =>
    match earliestEntry ws with
    | none => some w
    | some w2 => if w2.created_at < w.created_at then some w2 else some w

/-- The slot hash recomputed by the cancellation handler from a booking's
first allocation (`'unknown'` when it has none). -/
def cancelHash (s : DbState) (booking : Booking) : String :=
  let ridStr :=
    match (allocationsOf s booking.id).head? with
    | some a => a.resource_id.display
    | none => "unknown"
  booking.start_ts.isoformat ++ "_" ++ booking.end_ts.isoformat ++ "_" ++ ridStr

/-- `POST /api/bookings/{id}/cancel` (`cancel_booking` in `main.py`): mark the
booking cancelled, recompute the slot hash, and report the earliest waitlist
entry for it (if any) in a `cancelled` audit event and the response. -/
def cancel_booking (s : DbState) (booking_id : Nat) : CancelOutcome × DbState :=
  match s.bookings.find? (fun b => b.id == booking_id) with
  | none => (CancelOutcome.notFound, s)
  | some booking =>
    let s1 : DbState :=
      { s with bookings := s.bookings.map (fun b =>
          if b.id == booking_id then { b with status := "cancelled" } else b) }
    let slot_hash := cancelHash s1 booking
    match earliestEntry (s1.waitlist.filter (fun w => w.slot_hash == slot_hash)) with
    | some w =>
      let auditRow : AuditRow :=
        { booking_id := booking.id, event_type := "cancelled",
          payload := AuditPayload.nextWaitlistUser w.user_id }
      (CancelOutcome.cancelled (some w.user_id),
       { s1 with audit := s1.audit ++ [auditRow] })
    | none => (CancelOutcome.cancelled none, s1)

/-- `GET /api/simulate-pricing`: look the court up and price the interval with
no equipment and no coach; nothing is written. -/
def simulate_pricing (s : DbState) (court_id : Nat) (start_ts end_ts : DateTime) :
    Option PriceResult × DbState :=
  match s.courts.find? (fun c => c.id == court_id) with
  | none => (none, s)
  | some court => (some (compute_price s court start_ts end_ts [] none), s)

/-- Spec-side step function for the rule fold, acting on the running total
only: percentage/additive adds `total * value/100`, percentage/multiplicative
multiplies by `1 + value/100`, percentage/max takes the maximum of the old
total and the multiplicative result, absolute adds the value; anything else
leaves the total unchanged. -/
def applyRuleSpec (total : ℚ) (r : PricingRule) : ℚ :=
  let typ : Option String := r.rule_json.modifier.bind (fun m => m.type)
  let val : ℚ := (r.rule_json.modifier.bind (fun m => m.value)).getD 0
  let stack : String := r.rule_json.stack_behavior.getD "additive"
  if typ == some "percentage" then
    if stack == "additive" then total + total * (val / 100)
    else if stack == "multiplicative" then total * (1 + val / 100)
    else if stack == "max" then max total (total * (1 + val / 100))
    else total
  else if typ == some "absolute" then total + val
  else total

/-- Spec-side reading of "the requested interval lies entirely within the
coach's availability window for the weekday of the start timestamp": the
start's time of day is at or after the window start and the interval ends no
later than the window end on that same day. -/
def withinWindowSpec (win_start win_end : Nat) (start_ts end_ts : DateTime) : Prop :=
  win_start ≤ start_ts.minute ∧ end_ts.toMin ≤ start_ts.day * 1440 + win_end

instance (ws we : Nat) (a b : DateTime) : Decidable (withinWindowSpec ws we a b) := by
  unfold withinWindowSpec; infer_instance

/-- A Prop-level account of one equipment line passing the validation loop. -/
def lineOk (s : DbState) (overlapping : List Booking) (e : EquipmentReq) : Prop :=
  ∃ item, s.equipment_items.find? (fun it => it.sku == e.sku) = some item ∧
    item.active = true ∧
    e.quantity.getD 1 ≤ item.total_quantity - bookedQty s overlapping e.sku

theorem resolveUser_frame (s : DbState) (email : String) :
    (resolveUser s email).2.courts = s.courts ∧
    (resolveUser s email).2.equipment_items = s.equipment_items ∧
    (resolveUser s email).2.coaches = s.coaches ∧
    (resolveUser s email).2.coach_availability = s.coach_availability ∧
    (resolveUser s email).2.bookings = s.bookings ∧
    (resolveUser s email).2.allocations = s.allocations ∧
    (resolveUser s email).2.pricing_rules = s.pricing_rules ∧
    (resolveUser s email).2.waitlist = s.waitlist ∧
    (resolveUser s email).2.audit = s.audit := by
  unfold resolveUser
  cases s.users.find? (fun u => u.email == email) <;> simp

theorem create_booking_core_users (s1 : DbState) (user : UserRow)
    (req : BookingRequest) : (create_booking_core s1 user req).2.users = s1.users := by
  unfold create_booking_core persistBooking
  cases s1.courts.find? (fun c => c.id == req.court_id) with
  | none => rfl
  | some court =>
    dsimp only
    split
    · rfl
    · split
      · rfl
      · cases checkEquipment s1 (overlappingConfirmed s1 req.start_ts req.end_ts)
            req.equipment with
        | some r => rfl
        | none =>
          cases checkCoach s1 (overlappingConfirmed s1 req.start_ts req.end_ts) req with
          | some r => rfl
          | none => rfl

theorem earliestEntry_eq_none (l : List WaitlistRow) :
    earliestEntry l = none ↔ l = [] := by
  cases l with
  | nil => simp [earliestEntry]
  | cons w ws =>
    simp only [earliestEntry]
    cases earliestEntry ws <;> simp
    split <;> simp

theorem earliestEntry_min (l : List WaitlistRow) (w : WaitlistRow)
    (h : earliestEntry l = some w) :
    w ∈ l ∧ ∀ x ∈ l, w.created_at ≤ x.created_at := by
  induction l generalizing w with
  | nil => simp [earliestEntry] at h
  | cons y ys ih =>
    simp only [earliestEntry] at h
    cases hys : earliestEntry ys with
    | none =>
      rw [hys] at h
      cases h
      have : ys = [] := (earliestEntry_eq_none ys).mp hys
      subst this
      simp
    | some w2 =>
      rw [hys] at h
      dsimp only at h
      obtain ⟨hmem, hmin⟩ := ih w2 hys
      by_cases hlt : w2.created_at < y.created_at
      · rw [if_pos hlt] at h
        cases h
        refine ⟨List.mem_cons_of_mem _ hmem, ?_⟩
        intro x hx
        rcases List.mem_cons.mp hx with hx | hx
        · subst hx; exact le_of_lt hlt
        · exact hmin x hx
      · rw [if_neg hlt] at h
        cases h
        refine ⟨List.mem_cons_self _ _, ?_⟩
        intro x hx
        rcases List.mem_cons.mp hx with hx | hx
        · subst hx; exact le_refl _
        · exact le_trans (not_lt.mp hlt) (hmin x hx)

theorem hasCourtConflict_iff (s : DbState) (start_ts end_ts : DateTime) (cid : Nat) :
    hasCourtConflict s (overlappingConfirmed s start_ts end_ts) cid = true ↔
      ∃ b ∈ s.bookings, b.status = "confirmed" ∧
        b.start_ts.toMin < end_ts.toMin ∧ start_ts.toMin < b.end_ts.toMin ∧
        ∃ a ∈ s.allocations, a.booking_id = b.id ∧ a.resource_type = "court" ∧
          a.resource_id = ResId.rint cid := by
  simp only [hasCourtConflict, overlappingConfirmed, allocationsOf, List.any_eq_true,
    List.mem_filter, Bool.and_eq_true, decide_eq_true_eq, beq_iff_eq]
  aesop

theorem checkEquipment_skip (s : DbState) (overlapping : List Booking)
    (pre l : List EquipmentReq)
    (h : ∀ e ∈ pre, lineOk s overlapping e) :
    checkEquipment s overlapping (pre ++ l) = checkEquipment s overlapping l := by
  induction pre with
  | nil => rfl
  | cons e rest ih =>
    obtain ⟨item, hf, ha, hle⟩ := h e (List.mem_cons_self _ _)
    have hrest : ∀ e2 ∈ rest, lineOk s overlapping e2 := fun e2 he2 =>
      h e2 (List.mem_cons_of_mem _ he2)
    simp only [List.cons_append, checkEquipment, hf, ha, Bool.not_true,
      Bool.false_eq_true, if_false, if_neg (not_lt.mpr hle)]
    exact ih hrest

theorem checkEquipment_fails (s : DbState) (overlapping : List Booking)
    (e : EquipmentReq) (rest : List EquipmentReq) (item : EquipmentItem)
    (hf : s.equipment_items.find? (fun it => it.sku == e.sku) = some item)
    (ha : item.active = true)
    (hgt : e.quantity.getD 1 > item.total_quantity - bookedQty s overlapping e.sku) :
    checkEquipment s overlapping (e :: rest) =
      some (Reason.equipment_insufficient e.sku (e.quantity.getD 1)
        (item.total_quantity - bookedQty s overlapping e.sku)) := by
  simp only [checkEquipment, hf, ha, Bool.not_true, Bool.false_eq_true, if_false,
    if_pos hgt]

theorem applyRuleStep_fst (acc : ℚ × List BreakdownEntry) (r : PricingRule) :
    (applyRuleStep acc r).1 = applyRuleSpec acc.1 r := by
  unfold applyRuleStep applyRuleSpec
  dsimp only
  split
  · rfl
  · split <;> rfl

theorem foldl_applyRuleStep_fst (l : List PricingRule) :
    ∀ (t : ℚ) (bd : List BreakdownEntry),
      (l.foldl applyRuleStep (t, bd)).1 = l.foldl applyRuleSpec t := by
  induction l with
  | nil => intro t bd; rfl
  | cons r rs ih =>
    intro t bd
    have h1 : applyRuleStep (t, bd) r =
        ((applyRuleStep (t, bd) r).1, (applyRuleStep (t, bd) r).2) := rfl
    calc (List.foldl applyRuleStep (applyRuleStep (t, bd) r) rs).1
        = (List.foldl applyRuleStep
            ((applyRuleStep (t, bd) r).1, (applyRuleStep (t, bd) r).2) rs).1 := by
          rw [← h1]
      _ = List.foldl applyRuleSpec (applyRuleStep (t, bd) r).1 rs := ih _ _
      _ = List.foldl applyRuleSpec (applyRuleSpec t r) rs := by
          rw [applyRuleStep_fst]

theorem create_booking_eq (s : DbState) (req : BookingRequest) (u : UserRow)
    (s1 : DbState) (hu : resolveUser s req.user_email = (u, s1)) :
    create_booking s req = create_booking_core s1 u req := by
  simp only [create_booking, hu]

theorem create_booking_core_conflict (s1 : DbState) (u : UserRow)
    (req : BookingRequest) (court : Court)
    (hc : s1.courts.find? (fun c => c.id == req.court_id) = some court)
    (he : court.enabled = true)
    (hcf : hasCourtConflict s1 (overlappingConfirmed s1 req.start_ts req.end_ts)
      req.court_id = true) :
    create_booking_core s1 u req =
      (Outcome.waitlisted s1.next_id,
       { s1 with
          waitlist := s1.waitlist ++
            [{ id := s1.next_id,
               slot_hash := slotHash req.start_ts req.end_ts req.court_id,
               user_id := u.id, created_at := s1.clock }],
          next_id := s1.next_id + 1, clock := s1.clock + 1 }) := by
  unfold create_booking_core
  rw [hc]
  simp only [he, hcf, Bool.not_true, Bool.false_eq_true, if_false, if_true]

theorem create_booking_core_noconflict (s1 : DbState) (u : UserRow)
    (req : BookingRequest) (court : Court)
    (hc : s1.courts.find? (fun c => c.id == req.court_id) = some court)
    (he : court.enabled = true)
    (hncf : hasCourtConflict s1 (overlappingConfirmed s1 req.start_ts req.end_ts)
      req.court_id = false) :
    create_booking_core s1 u req =
      (match checkEquipment s1 (overlappingConfirmed s1 req.start_ts req.end_ts)
          req.equipment with
       | some reason => (Outcome.rejected reason, s1)
       | none =>
         match checkCoach s1 (overlappingConfirmed s1 req.start_ts req.end_ts) req with
         | some reason => (Outcome.rejected reason, s1)
         | none =>
           persistBooking s1 req u
             (compute_price s1 court req.start_ts req.end_ts req.equipment
               (if coachTruthy req.coach_id then
                  s1.coaches.find? (fun c => c.id == req.coach_id.getD 0)
                else none))) := by
  unfold create_booking_core
  rw [hc]
  simp only [he, hncf, Bool.not_true, Bool.false_eq_true, if_false]

/-! Concrete fixtures used by witnesses and counterexamples. -/

def dMon9 : DateTime := ⟨0, 540⟩
def dMon10 : DateTime := ⟨0, 600⟩
def dMon11 : DateTime := ⟨0, 660⟩
def dMon19 : DateTime := ⟨0, 1140⟩
def dMon22 : DateTime := ⟨0, 1320⟩
def dTue9 : DateTime := ⟨1, 540⟩

def courtOne : Court :=
  { id := 1, name := "court_1", type := "indoor", enabled := true,
    base_hourly := some 600 }

def ruleAdd20 : PricingRule :=
  { name := "Peak 18-21", enabled := true, priority := 5,
    rule_json :=
      { matchSpec := none, applies_to := none,
        modifier := some { type := some "percentage", value := some 20 },
        stack_behavior := some "additive" } }

def ruleAdd25 : PricingRule :=
  { name := "Indoor +25", enabled := true, priority := 10,
    rule_json :=
      { matchSpec := none, applies_to := none,
        modifier := some { type := some "percentage", value := some 25 },
        stack_behavior := some "additive" } }

def emptyTables : DbState :=
  { users := [], courts := [courtOne], equipment_items := [], coaches := [],
    coach_availability := [], bookings := [], allocations := [],
    pricing_rules := [], waitlist := [], audit := [], next_id := 1, clock := 0 }

def stateOneRule : DbState := { emptyTables with pricing_rules := [ruleAdd20] }

def stateTwoRules : DbState :=
  { emptyTables with pricing_rules := [ruleAdd20, ruleAdd25] }

/-- Claim C2, counterexample: the rule `{'match': {}, 'applies_to': 'indoor'}`
(the seeded "Indoor +25" shape) restricts to the category `"indoor"`, which is
neither unspecified nor `"all"`, yet `rule_applies` returns `true` for an
`"outdoor"` target, because the empty `match` dict returns early before the
category clause is consulted. -/
theorem c2_category_counterexample :
    ruleAdd25.rule_json.applies_to = none ∧
    rule_applies { ruleAdd25.rule_json with applies_to := some "indoor" }
      (some "outdoor") dMon10 dMon11 = true ∧
    ("indoor" : String) ≠ "outdoor" := by
  refine ⟨rfl, rfl, by decide⟩

/-- Claim C2 (amended): the category restriction is only consulted when the
rule's `match` dict is non-empty.  For a rule with a non-empty `match` dict, a
category that is neither unspecified nor the wildcard `"all"`, and a target
with a non-empty category, `rule_applies` returns `true` only when the rule's
category equals the target's; and a rule whose `match` dict is empty or absent
matches every target, regardless of any category restriction. -/
theorem c2_category_amended :
    (∀ (rj : RuleJson) (m : MatchSpec) (a t : String) (st en : DateTime),
      rj.matchSpec = some m → rj.applies_to = some a → a ≠ "" → a ≠ "all" →
      t ≠ "" → rule_applies rj (some t) st en = true → a = t)
    ∧ (∀ (rj : RuleJson) (tgt : Option String) (st en : DateTime),
        rj.matchSpec = none → rule_applies rj tgt st en = true) := by
  constructor
  · intro rj m a t st en hm ha hne hnall htne h
    rw [rule_applies, hm] at h
    dsimp only at h
    cases hday : day_matches m st with
    | false => rw [hday] at h; simp at h
    | true =>
      rw [hday] at h
      cases htime : time_matches m st with
      | false => rw [htime] at h; simp at h
      | true =>
        rw [htime] at h
        simp only [Bool.not_true, Bool.false_eq_true, if_false] at h
        simp only [category_matches, ha] at h
        rw [if_pos] at h
        · exact eq_of_beq h
        · simp [bne, hne, hnall, htne]
  · intro rj tgt st en hm
    rw [rule_applies, hm]

/-- Claim C2 (amended), witness: a rule with a non-empty match dict and
category `"indoor"` that matches an `"indoor"` target has equal categories. -/
theorem c2_category_amended_witness :
    ("indoor" : String) = "indoor" :=
  c2_category_amended.1
    { matchSpec := some { days := none, start := none, endT := none },
      applies_to := some "indoor", modifier := none, stack_behavior := none }
    { days := none, start := none, endT := none } "indoor" "indoor" dMon10 dMon11
    rfl rfl (by decide) (by decide) (by decide) (by rfl)

/-- Claim C9: `compute_price` is deterministic and side-effect-free.  Its
result depends only on the pricing-rule table of the database state (plus its
explicit arguments), so two calls with identical court, interval, equipment,
coach and rule set agree on the whole result (base, breakdown, line items and
total); and the pure pricing endpoint returns the state unchanged. -/
theorem c9_price_deterministic :
    (∀ (s1 s2 : DbState) (court : Court) (a b : DateTime)
        (eqp : List EquipmentReq) (coach : Option Coach),
      s1.pricing_rules = s2.pricing_rules →
      compute_price s1 court a b eqp coach = compute_price s2 court a b eqp coach)
    ∧ (∀ (s : DbState) (cid : Nat) (a b : DateTime),
        (simulate_pricing s cid a b).2 = s) := by
  constructor
  · intro s1 s2 court a b eqp coach h
    simp only [compute_price, h]
  · intro s cid a b
    unfold simulate_pricing
    cases s.courts.find? (fun c => c.id == cid) <;> rfl

/-- Claim C9, witness: two states sharing the rule table but differing in
bookings and users price identically, and the pricing endpoint leaves its
state untouched. -/
theorem c9_price_deterministic_witness :
    compute_price stateOneRule courtOne dMon10 dMon11 [] none =
      compute_price { stateOneRule with users := [{ id := 7, name := "x", email := "x@y.z" }], next_id := 8 }
        courtOne dMon10 dMon11 [] none ∧
    (simulate_pricing stateOneRule 1 dMon10 dMon11).2 = stateOneRule :=
  ⟨c9_price_deterministic.1 stateOneRule
      { stateOneRule with users := [{ id := 7, name := "x", email := "x@y.z" }], next_id := 8 }
      courtOne dMon10 dMon11 [] none rfl,
   c9_price_deterministic.2 stateOneRule 1 dMon10 dMon11⟩

/-- Claim C8: a rule with a `[start_time, end_time)` time-of-day window tests
only the time of day of the interval's start instant: the result never depends
on the interval's end, any start instant outside the half-open window (in
particular one strictly before `start_time`, even if the interval ends inside
the window) fails to match, a start exactly at `start_time` matches whenever
the day and category clauses pass, and a start exactly at `end_time` never
matches. -/
theorem c8_time_window_start_only :
    (∀ (rj : RuleJson) (tgt : Option String) (st en en2 : DateTime),
      rule_applies rj tgt st en = rule_applies rj tgt st en2)
    ∧ (∀ (rj : RuleJson) (m : MatchSpec) (ws we : Nat) (tgt : Option String)
        (st en : DateTime),
        rj.matchSpec = some m → m.start = some ws → m.endT = some we →
        ((¬(ws ≤ st.minute ∧ st.minute < we) → rule_applies rj tgt st en = false)
         ∧ (st.minute = ws → ws < we → day_matches m st = true →
              category_matches rj tgt = true → rule_applies rj tgt st en = true)
         ∧ (st.minute = we → rule_applies rj tgt st en = false))) := by
  constructor
  · intro rj tgt st en en2; rfl
  · intro rj m ws we tgt st en hm hws hwe
    have htm : time_matches m st =
        (decide (ws ≤ st.minute) && decide (st.minute < we)) := by
      rw [time_matches, hws, hwe]
    refine ⟨?_, ?_, ?_⟩
    · intro hout
      have : time_matches m st = false := by
        rw [htm]
        rcases Decidable.not_and_iff_or_not.mp hout with h | h <;> simp [h]
      rw [rule_applies, hm]
      dsimp only
      rw [this]
      cases day_matches m st <;> simp
    · intro hst hlt hday hcat
      have : time_matches m st = true := by
        rw [htm, hst]; simp [hlt]
      rw [rule_applies, hm]
      dsimp only
      rw [this, hday]
      simpa using hcat
    · intro hst
      have : time_matches m st = false := by
        rw [htm, hst]; simp
      rw [rule_applies, hm]
      dsimp only
      rw [this]
      cases day_matches m st <;> simp

/-- Claim C8, witness: for a rule with window 18:00-21:00, an interval that
starts at 17:30 and ends at 19:00 (inside the window) does not match. -/
theorem c8_time_window_start_only_witness :
    rule_applies
      { matchSpec := some { days := none, start := some 1080, endT := some 1260 },
        applies_to := none, modifier := none, stack_behavior := none }
      (some "indoor") ⟨0, 1050⟩ dMon19 = false :=
  ((c8_time_window_start_only.2
      { matchSpec := some { days := none, start := some 1080, endT := some 1260 },
        applies_to := none, modifier := none, stack_behavior := none }
      { days := none, start := some 1080, endT := some 1260 } 1080 1260
      (some "indoor") ⟨0, 1050⟩ dMon19 rfl rfl rfl).1 (by decide))

def dMon20 : DateTime := ⟨0, 1200⟩

def ruleMaxNeg : PricingRule :=
  { name := "Max -50", enabled := true, priority := 0,
    rule_json :=
      { matchSpec := none, applies_to := none,
        modifier := some { type := some "percentage", value := some (-50) },
        stack_behavior := some "max" } }

/-- Claim C3: `compute_price` seeds the total with
`base = baseHourlyRate * durationHours` and folds the enabled applicable
rules, sorted by descending priority, left to right with the step function
`applyRuleSpec` (percentage/additive adds `total*value/100`,
percentage/multiplicative multiplies by `1 + value/100`, percentage/max takes
the maximum of the old total and the multiplicative result — so that step
never lowers the total — and absolute adds the value).  In particular a base
of 600 with one additive +20% rule yields 720, and two additive rules (+25%
then +20%) compound sequentially to 900, not independently to 870. -/
theorem c3_price_fold :
    (∀ (db : DbState) (court : Court) (a b : DateTime)
        (eqp : List EquipmentReq) (coach : Option Coach),
      (compute_price db court a b eqp coach).base =
        pyOr0 court.base_hourly * durationHours a b)
    ∧ (∀ (db : DbState) (court : Court) (a b : DateTime),
        (compute_price db court a b [] none).total =
          List.foldl applyRuleSpec (pyOr0 court.base_hourly * durationHours a b)
            (sortRulesDesc ((db.pricing_rules.filter (fun r => r.enabled)).filter
              (fun r => rule_applies r.rule_json (some court.type) a b))))
    ∧ (∀ (t : ℚ) (r : PricingRule),
        r.rule_json.modifier.bind (fun m => m.type) = some "percentage" →
        r.rule_json.stack_behavior.getD "additive" = "max" →
        t ≤ applyRuleSpec t r)
    ∧ ((compute_price stateOneRule courtOne dMon19 dMon20 [] none).base = 600
       ∧ (compute_price stateOneRule courtOne dMon19 dMon20 [] none).total = 720)
    ∧ ((compute_price stateTwoRules courtOne dMon19 dMon20 [] none).total = 900
       ∧ (compute_price stateTwoRules courtOne dMon19 dMon20 [] none).total ≠
           600 + 600 * (25 / 100) + 600 * (20 / 100)) := by
  refine ⟨?_, ?_, ?_, ?_, ?_⟩
  · intro db court a b eqp coach
    rfl
  · intro db court a b
    simp only [compute_price, List.foldl_nil, foldl_applyRuleStep_fst, add_zero]
  · intro t r htyp hstack
    unfold applyRuleSpec
    simp only [htyp, hstack]
    rw [if_pos (by decide), if_neg (by decide), if_neg (by decide)]
    exact le_max_left _ _
  · constructor
    · norm_num [compute_price, stateOneRule, emptyTables, courtOne, ruleAdd20,
        dMon19, dMon20, durationHours, DateTime.toMin, pyOr0]
    · norm_num [compute_price, stateOneRule, emptyTables, courtOne, ruleAdd20,
        dMon19, dMon20, durationHours, DateTime.toMin, pyOr0, rule_applies,
        sortRulesDesc, insertRuleDesc, applyRuleStep]
  · constructor
    · norm_num [compute_price, stateTwoRules, emptyTables, courtOne, ruleAdd20,
        ruleAdd25, dMon19, dMon20, durationHours, DateTime.toMin, pyOr0,
        rule_applies, sortRulesDesc, insertRuleDesc, applyRuleStep]
    · norm_num [compute_price, stateTwoRules, emptyTables, courtOne, ruleAdd20,
        ruleAdd25, dMon19, dMon20, durationHours, DateTime.toMin, pyOr0,
        rule_applies, sortRulesDesc, insertRuleDesc, applyRuleStep]

/-- Claim C3, witness: a percentage/max rule with value -50 leaves a running
total of 500 unlowered. -/
theorem c3_price_fold_witness : (500 : ℚ) ≤ applyRuleSpec 500 ruleMaxNeg :=
  c3_price_fold.2.2.1 500 ruleMaxNeg rfl rfl

def reqBadCourt : BookingRequest :=
  { user_email := "eve@example.com", start_ts := dMon10, end_ts := dMon11,
    court_id := 99, equipment := [], coach_id := none }

def reqBackwards : BookingRequest :=
  { user_email := "eve@example.com", start_ts := dMon11, end_ts := dMon10,
    court_id := 1, equipment := [], coach_id := none }

def userEve : UserRow := { id := 1, name := "eve", email := "eve@example.com" }

def stateEve : DbState := { emptyTables with users := [userEve], next_id := 2 }

/-- Claim C10: a `book()` request whose email has no `User` row creates and
commits a new `User` row, named after the email's local part, before any
validation or conflict check, so the row is present in the final state
whatever the outcome (confirmed, waitlisted or rejected). -/
theorem c10_user_precreated (s : DbState) (req : BookingRequest)
    (h : ∀ u ∈ s.users, u.email ≠ req.user_email) :
    (create_booking s req).2.users =
      s.users ++ [{ id := s.next_id, name := localPart req.user_email,
                    email := req.user_email }] := by
  have hf : s.users.find? (fun u => u.email == req.user_email) = none := by
    rw [List.find?_eq_none]
    intro u hu
    simpa using h u hu
  have hres : resolveUser s req.user_email =
      ({ id := s.next_id, name := localPart req.user_email,
         email := req.user_email },
       { s with
          users := s.users ++
            [{ id := s.next_id, name := localPart req.user_email,
               email := req.user_email }],
          next_id := s.next_id + 1 }) := by
    simp only [resolveUser, hf]
  rw [create_booking_eq s req _ _ hres, create_booking_core_users]

/-- Claim C10, witness: an attempt rejected for an unknown court still leaves
the freshly created `User` row (named "eve" for `eve@example.com`) behind. -/
theorem c10_user_precreated_witness :
    (create_booking emptyTables reqBadCourt).2.users =
      [{ id := 1, name := "eve", email := "eve@example.com" }] :=
  c10_user_precreated emptyTables reqBadCourt (by simp [emptyTables])

/-- Claim C4, counterexample: a request for an unknown court is rejected but
still creates a `User` row (persistent state does change), and a request with
`end_ts < start_ts` is not rejected by any validation at all — it confirms. -/
theorem c4_validation_counterexample :
    ((create_booking emptyTables reqBadCourt).1 =
        Outcome.rejected Reason.court_unavailable
      ∧ (create_booking emptyTables reqBadCourt).2.users ≠ emptyTables.users)
    ∧ Outcome.isConfirmed (create_booking emptyTables reqBackwards).1 = true := by
  refine ⟨⟨?_, ?_⟩, ?_⟩
  · norm_num [create_booking, resolveUser, create_booking_core, emptyTables,
      reqBadCourt, courtOne, localPart, localPartAux]
  · norm_num [create_booking, resolveUser, create_booking_core, emptyTables,
      reqBadCourt, courtOne, localPart, localPartAux]
  · norm_num [create_booking, resolveUser, create_booking_core, emptyTables,
      reqBackwards, courtOne, localPart, localPartAux, overlappingConfirmed,
      hasCourtConflict, checkEquipment, checkCoach, coachTruthy, persistBooking,
      compute_price, durationHours, DateTime.toMin, pyOr0, sortRulesDesc,
      Outcome.isConfirmed, dMon10, dMon11, allocationsOf, slotHash]

/-- Claim C4 (amended): a `book()` request whose primary resource is unknown
or disabled is rejected immediately and creates no `Reservation`,
`Allocation`, `WaitlistEntry` or `AuditEvent` row — but the get-or-create
user step runs first, so a `User` row for a first-seen email is created and
kept even by the rejected attempt (and no interval validation exists:
see the counterexample, where `end_ts < start_ts` confirms). -/
theorem c4_validation_amended (s : DbState) (req : BookingRequest) (u : UserRow)
    (s1 : DbState)
    (hu : resolveUser s req.user_email = (u, s1))
    (hcourt : s1.courts.find? (fun c => c.id == req.court_id) = none ∨
      ∃ court, s1.courts.find? (fun c => c.id == req.court_id) = some court ∧
        court.enabled = false) :
    create_booking s req = (Outcome.rejected Reason.court_unavailable, s1)
    ∧ s1.bookings = s.bookings ∧ s1.allocations = s.allocations
    ∧ s1.waitlist = s.waitlist ∧ s1.audit = s.audit := by
  have hframe := resolveUser_frame s req.user_email
  rw [hu] at hframe
  refine ⟨?_, hframe.2.2.2.2.1, hframe.2.2.2.2.2.1, hframe.2.2.2.2.2.2.2.1,
    hframe.2.2.2.2.2.2.2.2⟩
  rw [create_booking_eq s req u s1 hu]
  unfold create_booking_core
  rcases hcourt with hnone | ⟨court, hsome, hdis⟩
  · rw [hnone]
  · rw [hsome]
    simp only [hdis, Bool.not_false, if_true]

/-- Claim C4 (amended), witness: the unknown-court request is rejected with
the user row committed and every other table untouched. -/
theorem c4_validation_amended_witness :
    create_booking emptyTables reqBadCourt =
      (Outcome.rejected Reason.court_unavailable, stateEve)
    ∧ stateEve.bookings = emptyTables.bookings
    ∧ stateEve.allocations = emptyTables.allocations
    ∧ stateEve.waitlist = emptyTables.waitlist
    ∧ stateEve.audit = emptyTables.audit :=
  c4_validation_amended emptyTables reqBadCourt userEve stateEve (by rfl)
    (Or.inl (by rfl))

def bkTen : Booking :=
  { id := 10, user_id := 1, start_ts := dMon10, end_ts := dMon11,
    status := "confirmed", total_price := 600, pricing_snapshot := none,
    created_at := 0 }

def alTen : Allocation :=
  { booking_id := 10, resource_type := "court", resource_id := ResId.rint 1,
    quantity := 1 }

def stateConflict : DbState :=
  { emptyTables with
      bookings := [bkTen], allocations := [alTen], next_id := 11, clock := 7 }

def reqBob : BookingRequest :=
  { user_email := "bob@example.com", start_ts := dMon10, end_ts := dMon11,
    court_id := 1,
    equipment := [{ sku := "racket", quantity := some 100, fee := none,
                    meta_fee := none }],
    coach_id := some 3 }

def userBob : UserRow := { id := 11, name := "bob", email := "bob@example.com" }

def stateConflict1 : DbState :=
  { stateConflict with users := [userBob], next_id := 12 }

/-- Claim C1: when some confirmed reservation holds a court allocation on the
requested court whose interval overlaps the requested one
(`a.start < b.end ∧ b.start < a.end`), `book()` creates a `WaitlistEntry` for
the slot fingerprint and the resolved user and returns a Waitlisted outcome
(no booking, allocation or audit row is touched), and the equipment and coach
parts of the request are never evaluated in this branch: stripping them from
the request yields the identical outcome and state. -/
theorem c1_conflict_waitlists (s : DbState) (req : BookingRequest) (u : UserRow)
    (s1 : DbState) (court : Court)
    (hu : resolveUser s req.user_email = (u, s1))
    (hc : s1.courts.find? (fun c => c.id == req.court_id) = some court)
    (he : court.enabled = true)
    (hconf : ∃ b ∈ s1.bookings, b.status = "confirmed" ∧
        b.start_ts.toMin < req.end_ts.toMin ∧ req.start_ts.toMin < b.end_ts.toMin ∧
        ∃ a ∈ s1.allocations, a.booking_id = b.id ∧ a.resource_type = "court" ∧
          a.resource_id = ResId.rint req.court_id) :
    create_booking s req =
      (Outcome.waitlisted s1.next_id,
       { s1 with
          waitlist := s1.waitlist ++
            [{ id := s1.next_id,
               slot_hash := slotHash req.start_ts req.end_ts req.court_id,
               user_id := u.id, created_at := s1.clock }],
          next_id := s1.next_id + 1, clock := s1.clock + 1 })
    ∧ create_booking s { req with equipment := [], coach_id := none } =
        create_booking s req := by
  have hcf : hasCourtConflict s1 (overlappingConfirmed s1 req.start_ts req.end_ts)
      req.court_id = true :=
    (hasCourtConflict_iff s1 req.start_ts req.end_ts req.court_id).mpr hconf
  have h1 : create_booking s req =
      (Outcome.waitlisted s1.next_id,
       { s1 with
          waitlist := s1.waitlist ++
            [{ id := s1.next_id,
               slot_hash := slotHash req.start_ts req.end_ts req.court_id,
               user_id := u.id, created_at := s1.clock }],
          next_id := s1.next_id + 1, clock := s1.clock + 1 }) := by
    rw [create_booking_eq s req u s1 hu,
      create_booking_core_conflict s1 u req court hc he hcf]
  refine ⟨h1, ?_⟩
  rw [h1]
  exact
    (create_booking_eq s { req with equipment := [], coach_id := none } u s1 hu).trans
      (create_booking_core_conflict s1 u { req with equipment := [], coach_id := none }
        court hc he hcf)

/-- Claim C1, witness: with a confirmed overlapping booking on court 1, a
request that also asks for impossible equipment and a nonexistent coach is
simply waitlisted, and stripping equipment/coach changes nothing. -/
theorem c1_conflict_waitlists_witness :
    create_booking stateConflict reqBob =
      (Outcome.waitlisted 12,
       { stateConflict1 with
          waitlist := [{ id := 12, slot_hash := slotHash dMon10 dMon11 1,
                         user_id := 11, created_at := 7 }],
          next_id := 13, clock := 8 })
    ∧ create_booking stateConflict { reqBob with equipment := [], coach_id := none } =
        create_booking stateConflict reqBob :=
  c1_conflict_waitlists stateConflict reqBob userBob stateConflict1 courtOne
    (by rfl) (by rfl) rfl (by decide)

def courtTwo : Court :=
  { id := 2, name := "court_2", type := "indoor", enabled := true,
    base_hourly := some 600 }

def eqRacket : EquipmentItem :=
  { sku := "racket", name := "Racket", total_quantity := 10, active := true }

def alCourtTwo : Allocation :=
  { booking_id := 10, resource_type := "court", resource_id := ResId.rint 2,
    quantity := 1 }

def alRacketFour : Allocation :=
  { booking_id := 10, resource_type := "equipment",
    resource_id := ResId.rstr "racket", quantity := 4 }

def stateEquip : DbState :=
  { emptyTables with
      courts := [courtOne, courtTwo], equipment_items := [eqRacket],
      bookings := [bkTen], allocations := [alCourtTwo, alRacketFour],
      next_id := 11, clock := 3 }

def reqCarol : BookingRequest :=
  { user_email := "carol@example.com", start_ts := dMon10, end_ts := dMon11,
    court_id := 1,
    equipment := [{ sku := "racket", quantity := some 8, fee := none,
                    meta_fee := none }],
    coach_id := none }

def userCarol : UserRow :=
  { id := 11, name := "carol", email := "carol@example.com" }

def stateEquip1 : DbState :=
  { stateEquip with users := [userCarol], next_id := 12 }

/-- Claim C5: when the primary resource has no conflict and an equipment line
requests more than the SKU's total capacity minus the quantity already
allocated by confirmed interval-overlapping reservations (all earlier lines
passing), `book()` rejects with exactly the requested and available
quantities, and writes no booking, allocation, waitlist or audit row (only
the get-or-create user step has run). -/
theorem c5_equipment_rejected (s : DbState) (req : BookingRequest) (u : UserRow)
    (s1 : DbState) (court : Court) (pre rest : List EquipmentReq)
    (e : EquipmentReq) (item : EquipmentItem)
    (hu : resolveUser s req.user_email = (u, s1))
    (hc : s1.courts.find? (fun c => c.id == req.court_id) = some court)
    (he : court.enabled = true)
    (hncf : hasCourtConflict s1 (overlappingConfirmed s1 req.start_ts req.end_ts)
      req.court_id = false)
    (hsplit : req.equipment = pre ++ e :: rest)
    (hpre : ∀ e2 ∈ pre,
      lineOk s1 (overlappingConfirmed s1 req.start_ts req.end_ts) e2)
    (hitem : s1.equipment_items.find? (fun it => it.sku == e.sku) = some item)
    (hact : item.active = true)
    (hgt : e.quantity.getD 1 > item.total_quantity -
      bookedQty s1 (overlappingConfirmed s1 req.start_ts req.end_ts) e.sku) :
    create_booking s req =
      (Outcome.rejected (Reason.equipment_insufficient e.sku (e.quantity.getD 1)
        (item.total_quantity -
          bookedQty s1 (overlappingConfirmed s1 req.start_ts req.end_ts) e.sku)),
       s1)
    ∧ s1.bookings = s.bookings ∧ s1.allocations = s.allocations
    ∧ s1.waitlist = s.waitlist ∧ s1.audit = s.audit := by
  have hframe := resolveUser_frame s req.user_email
  rw [hu] at hframe
  refine ⟨?_, hframe.2.2.2.2.1, hframe.2.2.2.2.2.1, hframe.2.2.2.2.2.2.2.1,
    hframe.2.2.2.2.2.2.2.2⟩
  have hce : checkEquipment s1 (overlappingConfirmed s1 req.start_ts req.end_ts)
      req.equipment =
      some (Reason.equipment_insufficient e.sku (e.quantity.getD 1)
        (item.total_quantity -
          bookedQty s1 (overlappingConfirmed s1 req.start_ts req.end_ts) e.sku)) := by
    rw [hsplit,
      checkEquipment_skip s1 (overlappingConfirmed s1 req.start_ts req.end_ts)
        pre (e :: rest) hpre,
      checkEquipment_fails s1 (overlappingConfirmed s1 req.start_ts req.end_ts)
        e rest item hitem hact hgt]
  rw [create_booking_eq s req u s1 hu,
    create_booking_core_noconflict s1 u req court hc he hncf, hce]

/-- Claim C5, witness: with 4 of 10 rackets already allocated by an
overlapping confirmed booking, a request for 8 rackets is rejected with
requested 8 and available 6, and only the new user row is written. -/
theorem c5_equipment_rejected_witness :
    create_booking stateEquip reqCarol =
      (Outcome.rejected (Reason.equipment_insufficient "racket" 8 6), stateEquip1)
    ∧ stateEquip1.bookings = stateEquip.bookings
    ∧ stateEquip1.allocations = stateEquip.allocations
    ∧ stateEquip1.waitlist = stateEquip.waitlist
    ∧ stateEquip1.audit = stateEquip.audit :=
  c5_equipment_rejected stateEquip reqCarol userCarol stateEquip1 courtOne
    [] [] { sku := "racket", quantity := some 8, fee := none, meta_fee := none }
    eqRacket (by rfl) (by rfl) rfl (by decide) rfl (by simp) (by rfl) rfl
    (by decide)

def wlLater : WaitlistRow :=
  { id := 21, slot_hash := "0T600_0T660_1", user_id := 5, created_at := 9 }

def wlEarly : WaitlistRow :=
  { id := 20, slot_hash := "0T600_0T660_1", user_id := 2, created_at := 3 }

def stateCancel : DbState :=
  { emptyTables with
      bookings := [bkTen], allocations := [alTen],
      waitlist := [wlLater, wlEarly], next_id := 30, clock := 12 }

/-- Claim C6: cancelling an existing reservation marks it cancelled without
deleting its allocations or touching any other booking; the waitlist is
neither consumed nor modified and no new reservation is created; when a
waitlist entry exists for the recomputed slot fingerprint, the reported
`next_waitlist_user_id` belongs to an entry with the earliest creation time
(FIFO); and cancelling a nonexistent id is rejected as not found. -/
theorem c6_cancel_waitlist (s : DbState) (bid : Nat) :
    (s.bookings.find? (fun b => b.id == bid) = none →
      cancel_booking s bid = (CancelOutcome.notFound, s))
    ∧ (∀ booking, s.bookings.find? (fun b => b.id == bid) = some booking →
        (cancel_booking s bid).2.allocations = s.allocations
        ∧ (cancel_booking s bid).2.waitlist = s.waitlist
        ∧ (cancel_booking s bid).2.bookings =
            s.bookings.map (fun b =>
              if b.id == bid then { b with status := "cancelled" } else b)
        ∧ (earliestEntry (s.waitlist.filter (fun w =>
              w.slot_hash == cancelHash s booking)) = none →
            (cancel_booking s bid).1 = CancelOutcome.cancelled none)
        ∧ (∀ w, earliestEntry (s.waitlist.filter (fun w2 =>
              w2.slot_hash == cancelHash s booking)) = some w →
            (cancel_booking s bid).1 = CancelOutcome.cancelled (some w.user_id)
            ∧ w ∈ s.waitlist.filter (fun w2 =>
                w2.slot_hash == cancelHash s booking)
            ∧ ∀ w2 ∈ s.waitlist.filter (fun w2 =>
                w2.slot_hash == cancelHash s booking),
                w.created_at ≤ w2.created_at)) := by
  constructor
  · intro h
    unfold cancel_booking
    rw [h]
  · intro booking hb
    have hhash : cancelHash
        { s with bookings := s.bookings.map (fun b =>
            if b.id == bid then { b with status := "cancelled" } else b) }
        booking = cancelHash s booking := rfl
    unfold cancel_booking
    rw [hb]
    dsimp only
    rw [hhash]
    cases hE : earliestEntry (s.waitlist.filter (fun w2 =>
        w2.slot_hash == cancelHash s booking)) with
    | none =>
      refine ⟨rfl, rfl, rfl, fun _ => rfl, ?_⟩
      intro w hw
      cases hw
    | some w0 =>
      refine ⟨rfl, rfl, rfl, ?_, ?_⟩
      · intro hcontr
        cases hcontr
      · intro w hw
        cases hw
        obtain ⟨hmem, hmin⟩ := earliestEntry_min _ _ hE
        exact ⟨rfl, hmem, hmin⟩

/-- Claim C6, witness: cancelling booking 10 reports user 2, whose waitlist
entry was created earliest (3 ≤ 9) although it sits later in the table, and
leaves allocations and the waitlist untouched; a nonexistent id is not
found. -/
theorem c6_cancel_waitlist_witness :
    (cancel_booking stateCancel 10).1 = CancelOutcome.cancelled (some 2)
    ∧ (cancel_booking stateCancel 10).2.allocations = stateCancel.allocations
    ∧ (cancel_booking stateCancel 10).2.waitlist = stateCancel.waitlist
    ∧ wlEarly.created_at ≤ wlLater.created_at
    ∧ cancel_booking stateCancel 99 = (CancelOutcome.notFound, stateCancel) := by
  have h := (c6_cancel_waitlist stateCancel 10).2 bkTen (by rfl)
  have h5 := h.2.2.2.2 wlEarly (by rfl)
  exact ⟨h5.1, h.1, h.2.1, by decide,
    (c6_cancel_waitlist stateCancel 99).1 (by rfl)⟩

def coachThree : Coach :=
  { id := 3, name := "Coach A", hourly_rate := some 300, active := true }

def caMonday : CoachAvailability :=
  { coach_id := 3, day_of_week := "monday", start_time := 480, end_time := 1200 }

def stateCoach : DbState :=
  { emptyTables with coaches := [coachThree], coach_availability := [caMonday] }

def reqNight : BookingRequest :=
  { user_email := "dan@example.com", start_ts := dMon19, end_ts := dTue9,
    court_id := 1, equipment := [], coach_id := some 3 }

def reqLate : BookingRequest :=
  { user_email := "dan@example.com", start_ts := dMon19, end_ts := dMon22,
    court_id := 1, equipment := [], coach_id := some 3 }

def userDan : UserRow := { id := 1, name := "dan", email := "dan@example.com" }

def stateCoach1 : DbState :=
  { stateCoach with users := [userDan], next_id := 2 }

/-- Claim C7, counterexample: coach 3 is active with a Monday 08:00-20:00
availability window, and a request from Monday 19:00 to Tuesday 09:00 does
not lie within that window, yet `book()` confirms it rather than rejecting
with the window, because the handler compares only the start and end times of
day. -/
theorem c7_coach_window_counterexample :
    Outcome.isConfirmed (create_booking stateCoach reqNight).1 = true
    ∧ ¬ withinWindowSpec caMonday.start_time caMonday.end_time
        reqNight.start_ts reqNight.end_ts
    ∧ reqNight.coach_id = some 3 ∧ coachThree.active = true := by
  refine ⟨?_, by decide, rfl, rfl⟩
  norm_num [create_booking, resolveUser, create_booking_core, stateCoach,
    emptyTables, reqNight, courtOne, coachThree, caMonday, localPart,
    localPartAux, overlappingConfirmed, hasCourtConflict, checkEquipment,
    checkCoach, coachTruthy, coachOverlapBooked, weekdayFull, persistBooking,
    compute_price, durationHours, DateTime.toMin, pyOr0, sortRulesDesc,
    Outcome.isConfirmed, dMon19, dTue9, allocationsOf, slotHash]

/-- Claim C7 (amended): once the court and equipment stages have passed and a
coach is requested, the coach checks behave as follows.  A missing or
inactive coach is rejected (`coach_not_available`); an active coach already
allocated to an overlapping confirmed reservation is rejected
(`coach_already_booked`); with no availability row for the weekday of the
start timestamp the request is rejected (`coach_no_availability`); with a row
whose window fails the time-of-day comparison — start time of day before the
window start, or end time of day after the window end — the request is
rejected with the window (`coach_window`); otherwise the coach checks pass
and the booking confirms.  (The comparison uses times of day only, so a
multi-day interval can pass even though it does not lie within the window:
see the counterexample.) -/
theorem c7_coach_checks_amended (s : DbState) (req : BookingRequest)
    (u : UserRow) (s1 : DbState) (court : Court) (cid : Nat)
    (hu : resolveUser s req.user_email = (u, s1))
    (hc : s1.courts.find? (fun c => c.id == req.court_id) = some court)
    (he : court.enabled = true)
    (hncf : hasCourtConflict s1 (overlappingConfirmed s1 req.start_ts req.end_ts)
      req.court_id = false)
    (heq : checkEquipment s1 (overlappingConfirmed s1 req.start_ts req.end_ts)
      req.equipment = none)
    (hcid : req.coach_id = some cid) (hcid0 : cid ≠ 0) :
    (s1.coaches.find? (fun c => c.id == cid) = none →
      create_booking s req = (Outcome.rejected Reason.coach_not_available, s1))
    ∧ (∀ c, s1.coaches.find? (fun c2 => c2.id == cid) = some c →
        (c.active = false →
          create_booking s req =
            (Outcome.rejected Reason.coach_not_available, s1))
        ∧ (c.active = true →
            coachOverlapBooked s1
              (overlappingConfirmed s1 req.start_ts req.end_ts) cid = true →
            create_booking s req =
              (Outcome.rejected Reason.coach_already_booked, s1))
        ∧ (c.active = true →
            coachOverlapBooked s1
              (overlappingConfirmed s1 req.start_ts req.end_ts) cid = false →
            (s1.coach_availability.find? (fun a =>
                (a.coach_id == cid) &&
                (a.day_of_week == weekdayFull req.start_ts)) = none →
              create_booking s req =
                (Outcome.rejected
                  (Reason.coach_no_availability (weekdayFull req.start_ts)), s1))
            ∧ ∀ ca, s1.coach_availability.find? (fun a =>
                (a.coach_id == cid) &&
                (a.day_of_week == weekdayFull req.start_ts)) = some ca →
                ((req.start_ts.minute < ca.start_time ∨
                    req.end_ts.minute > ca.end_time) →
                  create_booking s req =
                    (Outcome.rejected (Reason.coach_window ca.start_time
                      ca.end_time (weekdayFull req.start_ts)), s1))
                ∧ (ca.start_time ≤ req.start_ts.minute →
                    req.end_ts.minute ≤ ca.end_time →
                    (create_booking s req).1 =
                      Outcome.confirmed s1.next_id
                        (compute_price s1 court req.start_ts req.end_ts
                          req.equipment (some c)).total
                        (compute_price s1 court req.start_ts req.end_ts
                          req.equipment (some c))))) := by
  have hct : coachTruthy req.coach_id = true := by
    rw [hcid]
    simp [coachTruthy, hcid0]
  have hgd : req.coach_id.getD 0 = cid := by rw [hcid]; rfl
  have hbase : ∀ r, checkCoach s1
      (overlappingConfirmed s1 req.start_ts req.end_ts) req = r →
      create_booking s req =
        (match r with
         | some reason => (Outcome.rejected reason, s1)
         | none =>
           persistBooking s1 req u
             (compute_price s1 court req.start_ts req.end_ts req.equipment
               (if coachTruthy req.coach_id then
                  s1.coaches.find? (fun c => c.id == req.coach_id.getD 0)
                else none))) := by
    intro r hr
    rw [create_booking_eq s req u s1 hu,
      create_booking_core_noconflict s1 u req court hc he hncf, heq, hr]
  constructor
  · intro hfind
    refine hbase (some Reason.coach_not_available) ?_
    simp only [checkCoach, hct, if_true, hgd, hfind]
  · intro c hfind
    refine ⟨?_, ?_, ?_⟩
    · intro hinact
      refine hbase (some Reason.coach_not_available) ?_
      simp only [checkCoach, hct, if_true, hgd, hfind]
      simp [hinact]
    · intro hact hbusy
      refine hbase (some Reason.coach_already_booked) ?_
      simp only [checkCoach, hct, if_true, hgd, hfind]
      simp [hact, hbusy]
    · intro hact hfree
      constructor
      · intro hnoavail
        refine hbase (some (Reason.coach_no_availability
          (weekdayFull req.start_ts))) ?_
        simp only [checkCoach, hct, if_true, hgd, hfind]
        simp [hact, hfree, hnoavail]
      · intro ca hca
        constructor
        · intro hout
          refine hbase (some (Reason.coach_window ca.start_time ca.end_time
            (weekdayFull req.start_ts))) ?_
          simp only [checkCoach, hct, if_true, hgd, hfind]
          simp only [hact, hfree, hca, Bool.not_true, Bool.false_eq_true,
            if_false]
          rw [if_pos]
          rcases hout with hout | hout <;> simp [hout]
        · intro hs2 he2
          have hnone : checkCoach s1
              (overlappingConfirmed s1 req.start_ts req.end_ts) req = none := by
            simp only [checkCoach, hct, if_true, hgd, hfind]
            simp only [hact, hfree, hca, Bool.not_true, Bool.false_eq_true,
              if_false]
            rw [if_neg]
            simp [not_or, not_lt.mpr hs2, not_lt.mpr he2]
          rw [hbase none hnone]
          simp only [persistBooking, hct, if_true, hgd, hfind]

/-- Claim C7 (amended), witness: a Monday 19:00-22:00 request with coach 3
(window Monday 08:00-20:00) is rejected with the window, leaving only the new
user row behind. -/
theorem c7_coach_checks_amended_witness :
    create_booking stateCoach reqLate =
      (Outcome.rejected (Reason.coach_window 480 1200 "monday"), stateCoach1) := by
  have h := c7_coach_checks_amended stateCoach reqLate userDan stateCoach1
    courtOne 3 (by rfl) (by rfl) rfl (by rfl) (by rfl) rfl (by decide)
  exact (((h.2 coachThree (by rfl)).2.2 rfl (by rfl)).2 caMonday (by rfl)).1
    (Or.inr (by decide))
